import Mathlib

/-!
Shallow embedding of `server/table.go` from kolide/osquery-go: the osquery
table-plugin adapter.  The adapter wraps a user-supplied `TablePlugin`
(name, column schema, row generator) into the generic extension-plugin
interface (`Name`, `RegistryName`, `Routes`, `Ping`, `Call`, `Shutdown`).

Go's `context.Context` is an opaque type parameter `Ctx` threaded through
verbatim; the parsed JSON query context (`interface{}`) is an opaque type
parameter `J`; `encoding/json.Unmarshal` is external to the repository and
is taken as an arbitrary parse function `String → Except String J`.
-/

namespace OsqueryGo

/-- A Go `map[string]string` value, as an association list in insertion
order (the adapter never depends on map iteration order for requests). -/
abbrev StringMap := List (String × String)

/-- Go map lookup with the `ok` flag, `v, ok := m[k]`: the value stored at
the key when present. -/
def mapLookup (m : StringMap) (k : String) : Option String :=
  (m.find? fun p => p.1 == k).map Prod.snd

/-- Go map index `m[k]` without the `ok` flag: the stored value, or the
zero value `""` when the key is absent. -/
def mapIndex (m : StringMap) (k : String) : String :=
  (mapLookup m k).getD ""

/-- Go: `type ColumnType string` — a strongly typed representation of the
data type string for a column definition. -/
abbrev ColumnType := String

/-- Go: `const ColumnTypeString ColumnType = "TEXT"`. -/
def ColumnTypeString : ColumnType := "TEXT"

/-- Go: `const ColumnTypeInteger ColumnType = "INTEGER"`. -/
def ColumnTypeInteger : ColumnType := "INTEGER"

/-- Go struct `ColumnDefinition { Name string; Type ColumnType }`.  The
field `Type` is written `Type'` because `Type` is reserved in Lean. -/
structure ColumnDefinition where
  Name : String
  Type' : ColumnType
deriving Repr, DecidableEq

/-- Go: `StringColumn` — a helper for defining columns containing strings. -/
def StringColumn (name : String) : ColumnDefinition :=
  { Name := name, Type' := ColumnTypeString }

/-- Go: `IntegerColumn` — a helper for defining columns containing integers. -/
def IntegerColumn (name : String) : ColumnDefinition :=
  { Name := name, Type' := ColumnTypeInteger }

/-- Modelled from the spec: `osquery.ExtensionStatus` comes from the
repository's generated thrift bindings (`gen/osquery`), which are not among
the given sources.  The spec describes a status as a code (integer) plus a
message (string): code 0 = success, non-zero = failure. -/
structure ExtensionStatus where
  Code : Int
  Message : String
deriving Repr, DecidableEq

/-- Modelled from the spec: `osquery.ExtensionPluginRequest` is the wire
request format, "a mapping from string keys to string values". -/
abbrev ExtensionPluginRequest := StringMap

/-- A row: a mapping from column name to string value, kept as an
association list in literal order. -/
abbrev Row := StringMap

/-- Modelled from the spec: `osquery.ExtensionPluginResponse` is the
response payload, a sequence of string-to-string mappings (rows or column
routes). -/
abbrev ExtensionPluginResponse := List Row

/-- Modelled from the spec: `osquery.ExtensionResponse` is the wire
response envelope `{status, response}`, where the payload may be absent
(Go `nil` slice, never set on the error paths). -/
structure ExtensionResponse where
  Status : ExtensionStatus
  Response : Option ExtensionPluginResponse
deriving Repr, DecidableEq

/-- Modelled from the spec: `StatusOK` is defined elsewhere in the
repository's `server` package (not among the given sources); per the spec
it is the fixed "OK" status — code 0, empty message. -/
def StatusOK : ExtensionStatus := { Code := 0, Message := "" }

/-- Go interface `TablePlugin`: the minimum interface required to implement
an osquery table as a plugin — a table name, a column schema, and a row
generator taking the cancellation context and the deserialized JSON query
context (`J`, or `none` for Go's nil interface value).  `Generate` returns
rows or an error; a Go error is represented by its `Error()` string. -/
structure TablePlugin (Ctx J : Type) where
  TableName : String
  Columns : List ColumnDefinition
  Generate : Ctx → Option J → Except String (List Row)

/-- Go struct `tablePluginImpl { plugin TablePlugin }`: the adapter
produced by `NewTablePlugin`. -/
structure tablePluginImpl (Ctx J : Type) where
  plugin : TablePlugin Ctx J

/-- Go: `NewTablePlugin` wraps a `TablePlugin` value into the adapter. -/
def NewTablePlugin {Ctx J : Type} (plugin : TablePlugin Ctx J) :
    tablePluginImpl Ctx J :=
  { plugin := plugin }

/-- Go: `func (t *tablePluginImpl) Name() string { return t.plugin.TableName() }`. -/
def tablePluginImpl.Name {Ctx J : Type} (t : tablePluginImpl Ctx J) : String :=
  t.plugin.TableName

/-- Go: `func (t *tablePluginImpl) RegistryName() string { return "table" }`. -/
def tablePluginImpl.RegistryName {Ctx J : Type} (_ : tablePluginImpl Ctx J) :
    String :=
  "table"

/-- Go: `func (t *tablePluginImpl) Routes() osquery.ExtensionPluginResponse`
— one route map per column, appended in `Columns()` order, each
`{id: "column", name: col.Name, type: string(col.Type), op: "0"}` (keys in
the literal's order). -/
def tablePluginImpl.Routes {Ctx J : Type} (t : tablePluginImpl Ctx J) :
    ExtensionPluginResponse :=
  t.plugin.Columns.map fun col =>
    [("id", "column"), ("name", col.Name), ("type", col.Type'), ("op", "0")]

/-- Go: `func (t *tablePluginImpl) Ping() osquery.ExtensionStatus { return StatusOK }`. -/
def tablePluginImpl.Ping {Ctx J : Type} (_ : tablePluginImpl Ctx J) :
    ExtensionStatus :=
  StatusOK

/-- The context-deserialization step of the `"generate"` branch of `Call`
(table.go lines 68–79): when `request["context"]` is present, unmarshal it
with the JSON parser, yielding the parsed value; when absent, the query
context stays Go's nil interface value (`none`).  A parse error is the
error of the whole step. -/
def parsedContext {J : Type} (parse : String → Except String J)
    (request : ExtensionPluginRequest) : Except String (Option J) :=
  match mapLookup request "context" with
  | some ctxJSON => (parse ctxJSON).map some
  | none => Except.ok none

/-- Go: `func (t *tablePluginImpl) Call(ctx, request) osquery.ExtensionResponse`
— the dispatcher.  `switch request["action"]` with cases `"generate"`,
`"columns"` and a default; the `"generate"` branch parses the optional
JSON context (error → code 1, `"error parsing context JSON: "` message,
no call to `Generate`), then invokes `Generate` (error → code 1,
`"error generating table: "` message; success → `StatusOK` with the rows).
The error returns never set the `Response` field. -/
def tablePluginImpl.Call {Ctx J : Type} (parse : String → Except String J)
    (t : tablePluginImpl Ctx J) (ctx : Ctx)
    (request : ExtensionPluginRequest) : ExtensionResponse :=
  if mapIndex request "action" = "generate" then
    match parsedContext parse request with
    | Except.error err =>
      { Status := { Code := 1, Message := "error parsing context JSON: " ++ err }
        Response := none }
    | Except.ok queryContext =>
      match t.plugin.Generate ctx queryContext with
      | Except.error err =>
        { Status := { Code := 1, Message := "error generating table: " ++ err }
          Response := none }
      | Except.ok rows =>
        { Status := StatusOK, Response := some rows }
  else if mapIndex request "action" = "columns" then
    { Status := StatusOK, Response := some t.Routes }
  else
    { Status := { Code := 1
                  Message := "unknown action: " ++ mapIndex request "action" }
      Response := none }

/-- Go: `func (t *tablePluginImpl) Shutdown() {}` — a no-op. -/
def tablePluginImpl.Shutdown {Ctx J : Type} (_ : tablePluginImpl Ctx J) :
    Unit :=
  ()

/-! Concrete instances used by the witness theorems. -/

/-- A concrete plugin whose generator succeeds with one row. -/
def examplePlugin : TablePlugin Unit Unit :=
  { TableName := "example"
    Columns := [StringColumn "col1", IntegerColumn "col2"]
    Generate := fun _ _ => Except.ok [[("col1", "a")]] }

/-- A concrete plugin whose generator always fails with message `"boom"`. -/
def exampleErrPlugin : TablePlugin Unit Unit :=
  { TableName := "example_err"
    Columns := []
    Generate := fun _ _ => Except.error "boom" }

/-- A concrete stand-in for the external JSON parser: accepts exactly the
string `"{}"` and rejects everything else. -/
def exampleParse : String → Except String Unit :=
  fun s =>
    if s = "{}" then Except.ok () else Except.error "unexpected end of JSON input"

/-! ## Claim theorems -/

/-- C1: for every plugin, `Routes()` has exactly one entry per column of
`Columns()`, in the same order, and the entry at each position is the
mapping `{id: "column", name: col.Name, type: string(col.Type), op: "0"}`
for the column at that position. -/
theorem routes_one_route_per_column_in_order {Ctx J : Type}
    (t : tablePluginImpl Ctx J) :
    t.Routes.length = t.plugin.Columns.length ∧
    ∀ i : Nat,
      t.Routes[i]? = (t.plugin.Columns[i]?).map fun col =>
        [("id", "column"), ("name", col.Name), ("type", col.Type'), ("op", "0")] := by
  constructor
  · simp [tablePluginImpl.Routes]
  · intro i
    simp [tablePluginImpl.Routes, List.getElem?_map]

/-- C2: for every request whose `"action"` value is `"columns"`, `Call`
returns status OK (code 0, empty message) with payload `Routes()`,
regardless of the other request keys and of the wrapped plugin. -/
theorem call_columns_returns_routes {Ctx J : Type}
    (parse : String → Except String J) (t : tablePluginImpl Ctx J) (ctx : Ctx)
    (request : ExtensionPluginRequest)
    (h : mapIndex request "action" = "columns") :
    t.Call parse ctx request = { Status := StatusOK, Response := some t.Routes } := by
  simp [tablePluginImpl.Call, h]

/-- Witness for C2: a concrete `"columns"` request with an extra junk key
yields OK plus the routes. -/
theorem call_columns_returns_routes_witness :
    mapIndex [("action", "columns"), ("junk", "x")] "action" = "columns" ∧
    (NewTablePlugin examplePlugin).Call exampleParse ()
        [("action", "columns"), ("junk", "x")] =
      { Status := StatusOK
        Response := some (NewTablePlugin examplePlugin).Routes } :=
  ⟨by decide,
   call_columns_returns_routes exampleParse (NewTablePlugin examplePlugin) ()
     [("action", "columns"), ("junk", "x")] (by decide)⟩

/-- C3: for every `"generate"` request whose `"context"` value is present
but fails to parse as JSON, `Call` returns status code 1 with message
`"error parsing context JSON: " ++ <parse error>` and no payload, and the
result does not depend on the wrapped plugin's `Generate` at all (so
`Generate` is never invoked for that request). -/
theorem call_generate_bad_context {Ctx J : Type}
    (parse : String → Except String J) (t : tablePluginImpl Ctx J) (ctx : Ctx)
    (request : ExtensionPluginRequest) (s e : String)
    (ha : mapIndex request "action" = "generate")
    (hc : mapLookup request "context" = some s)
    (hp : parse s = Except.error e) :
    t.Call parse ctx request =
      { Status := { Code := 1, Message := "error parsing context JSON: " ++ e }
        Response := none } ∧
    ∀ g : Ctx → Option J → Except String (List Row),
      tablePluginImpl.Call parse { plugin := { t.plugin with Generate := g } }
          ctx request =
        t.Call parse ctx request := by
  have hmain : ∀ (t' : tablePluginImpl Ctx J),
      t'.Call parse ctx request =
        { Status := { Code := 1, Message := "error parsing context JSON: " ++ e }
          Response := none } := by
    intro t'
    simp [tablePluginImpl.Call, parsedContext, ha, hc, hp, Except.map]
  refine ⟨hmain t, fun g => ?_⟩
  rw [hmain, hmain]

/-- Witness for C3: the request `{action: generate, context: "\x7bbad json"}`
against the stand-in parser yields the parse-error response, and swapping
in a different `Generate` leaves the response unchanged. -/
theorem call_generate_bad_context_witness :
    mapIndex [("action", "generate"), ("context", "\x7bbad json")] "action" = "generate" ∧
    (NewTablePlugin examplePlugin).Call exampleParse ()
        [("action", "generate"), ("context", "\x7bbad json")] =
      { Status := { Code := 1
                    Message := "error parsing context JSON: unexpected end of JSON input" }
        Response := none } ∧
    tablePluginImpl.Call exampleParse
        { plugin := { examplePlugin with Generate := fun _ _ => Except.ok [] } } ()
        [("action", "generate"), ("context", "\x7bbad json")] =
      (NewTablePlugin examplePlugin).Call exampleParse ()
        [("action", "generate"), ("context", "\x7bbad json")] :=
  ⟨by decide,
   (call_generate_bad_context exampleParse (NewTablePlugin examplePlugin) ()
       [("action", "generate"), ("context", "\x7bbad json")]
       "\x7bbad json" "unexpected end of JSON input"
       (by decide) (by decide) (by rfl)).1,
   (call_generate_bad_context exampleParse (NewTablePlugin examplePlugin) ()
       [("action", "generate"), ("context", "\x7bbad json")]
       "\x7bbad json" "unexpected end of JSON input"
       (by decide) (by decide) (by rfl)).2 (fun _ _ => Except.ok [])⟩

/-- C4: for every `"generate"` request whose context step succeeds (context
absent, or present and valid JSON), when the wrapped plugin's `Generate`
returns rows and no error, `Call` returns status OK with payload exactly
those rows. -/
theorem call_generate_success_returns_rows {Ctx J : Type}
    (parse : String → Except String J) (t : tablePluginImpl Ctx J) (ctx : Ctx)
    (request : ExtensionPluginRequest) (qc : Option J) (rows : List Row)
    (ha : mapIndex request "action" = "generate")
    (hq : parsedContext parse request = Except.ok qc)
    (hg : t.plugin.Generate ctx qc = Except.ok rows) :
    t.Call parse ctx request = { Status := StatusOK, Response := some rows } := by
  simp [tablePluginImpl.Call, ha, hq, hg]

/-- Witness for C4: a concrete `"generate"` request with the valid context
`"{}"` and a generator producing `[{col1: a}]` yields OK with exactly that
row list. -/
theorem call_generate_success_returns_rows_witness :
    mapIndex [("action", "generate"), ("context", "{}")] "action" = "generate" ∧
    (NewTablePlugin examplePlugin).Call exampleParse ()
        [("action", "generate"), ("context", "{}")] =
      { Status := StatusOK, Response := some [[("col1", "a")]] } :=
  ⟨by decide,
   call_generate_success_returns_rows exampleParse (NewTablePlugin examplePlugin)
     () [("action", "generate"), ("context", "{}")] (some ()) [[("col1", "a")]]
     (by decide) (by rfl) (by rfl)⟩

/-- C5: for every `"generate"` request with no `"context"` key, the context
step succeeds with the absent/nil value `none` (it is not an error), and
`Call`'s result is exactly what `Generate` applied to `none` dictates. -/
theorem call_generate_missing_context_passes_none {Ctx J : Type}
    (parse : String → Except String J) (t : tablePluginImpl Ctx J) (ctx : Ctx)
    (request : ExtensionPluginRequest)
    (ha : mapIndex request "action" = "generate")
    (hc : mapLookup request "context" = none) :
    parsedContext parse request = Except.ok (none : Option J) ∧
    t.Call parse ctx request =
      match t.plugin.Generate ctx none with
      | Except.error err =>
        { Status := { Code := 1, Message := "error generating table: " ++ err }
          Response := none }
      | Except.ok rows => { Status := StatusOK, Response := some rows } := by
  have hq : parsedContext parse request = Except.ok (none : Option J) := by
    simp [parsedContext, hc]
  refine ⟨hq, ?_⟩
  simp [tablePluginImpl.Call, ha, hq]

/-- Witness for C5: the request `{action: generate}` with no context key
makes the context step yield `none` and the call return the generator's
rows for the `none` context. -/
theorem call_generate_missing_context_passes_none_witness :
    mapIndex [("action", "generate")] "action" = "generate" ∧
    parsedContext exampleParse [("action", "generate")] =
      Except.ok (none : Option Unit) ∧
    (NewTablePlugin examplePlugin).Call exampleParse () [("action", "generate")] =
      match (NewTablePlugin examplePlugin).plugin.Generate () none with
      | Except.error err =>
        { Status := { Code := 1, Message := "error generating table: " ++ err }
          Response := none }
      | Except.ok rows => { Status := StatusOK, Response := some rows } :=
  ⟨by decide,
   (call_generate_missing_context_passes_none exampleParse
      (NewTablePlugin examplePlugin) () [("action", "generate")]
      (by decide) (by decide)).1,
   (call_generate_missing_context_passes_none exampleParse
      (NewTablePlugin examplePlugin) () [("action", "generate")]
      (by decide) (by decide)).2⟩

/-- C6: for every `"generate"` request whose context step succeeds, when
the wrapped plugin's `Generate` returns an error with message `m`, `Call`
returns status code 1 with message `"error generating table: " ++ m` and
no payload. -/
theorem call_generate_error_reported {Ctx J : Type}
    (parse : String → Except String J) (t : tablePluginImpl Ctx J) (ctx : Ctx)
    (request : ExtensionPluginRequest) (qc : Option J) (m : String)
    (ha : mapIndex request "action" = "generate")
    (hq : parsedContext parse request = Except.ok qc)
    (hg : t.plugin.Generate ctx qc = Except.error m) :
    t.Call parse ctx request =
      { Status := { Code := 1, Message := "error generating table: " ++ m }
        Response := none } := by
  simp [tablePluginImpl.Call, ha, hq, hg]

/-- Witness for C6: a generator failing with `"boom"` yields code 1 and the
message `"error generating table: boom"`. -/
theorem call_generate_error_reported_witness :
    mapIndex [("action", "generate")] "action" = "generate" ∧
    (NewTablePlugin exampleErrPlugin).Call exampleParse () [("action", "generate")] =
      { Status := { Code := 1, Message := "error generating table: boom" }
        Response := none } :=
  ⟨by decide,
   call_generate_error_reported exampleParse (NewTablePlugin exampleErrPlugin)
     () [("action", "generate")] none "boom" (by decide) (by rfl) (by rfl)⟩

/-- C7: for every request whose `"action"` value (the stored string, or the
zero value `""` when the key is absent) is neither `"columns"` nor
`"generate"`, `Call` returns status code 1 with message
`"unknown action: " ++ <the action string>` and no payload; a request with
no `"action"` key at all indexes to the empty string. -/
theorem call_unknown_action {Ctx J : Type}
    (parse : String → Except String J) (t : tablePluginImpl Ctx J) (ctx : Ctx)
    (request : ExtensionPluginRequest)
    (h1 : mapIndex request "action" ≠ "generate")
    (h2 : mapIndex request "action" ≠ "columns") :
    t.Call parse ctx request =
      { Status := { Code := 1
                    Message := "unknown action: " ++ mapIndex request "action" }
        Response := none } ∧
    (mapLookup request "action" = none → mapIndex request "action" = "") := by
  refine ⟨?_, fun hnone => ?_⟩
  · simp [tablePluginImpl.Call, h1, h2]
  · simp [mapIndex, hnone]

/-- Witness for C7: the empty request has no `"action"` key, its action
string is `""`, and the response is code 1 with message
`"unknown action: "`. -/
theorem call_unknown_action_witness :
    mapIndex ([] : ExtensionPluginRequest) "action" ≠ "generate" ∧
    mapIndex ([] : ExtensionPluginRequest) "action" ≠ "columns" ∧
    (NewTablePlugin examplePlugin).Call exampleParse () [] =
      { Status := { Code := 1, Message := "unknown action: " ++ mapIndex [] "action" }
        Response := none } ∧
    mapIndex ([] : ExtensionPluginRequest) "action" = "" :=
  ⟨by decide, by decide,
   (call_unknown_action exampleParse (NewTablePlugin examplePlugin) () []
      (by decide) (by decide)).1,
   (call_unknown_action exampleParse (NewTablePlugin examplePlugin) () []
      (by decide) (by decide)).2 (by decide)⟩

/-- C8: `Ping` returns the fixed `StatusOK` value — code 0, empty
message — for every wrapped plugin; being a pure function of no other
input, it is independent of any prior calls. -/
theorem ping_always_ok {Ctx J : Type} (t : tablePluginImpl Ctx J) :
    t.Ping = StatusOK ∧ t.Ping.Code = 0 ∧ t.Ping.Message = "" :=
  ⟨rfl, rfl, rfl⟩

/-- C9: for every wrapped plugin, `Name` returns exactly the plugin's
`TableName`, and `RegistryName` returns the constant `"table"`; both are
total functions with no failure mode. -/
theorem name_and_registry_name {Ctx J : Type} (plugin : TablePlugin Ctx J) :
    (NewTablePlugin plugin).Name = plugin.TableName ∧
    (NewTablePlugin plugin).RegistryName = "table" :=
  ⟨rfl, rfl⟩

/-- C10: for every request, whenever `Call` returns a response whose status
code is non-zero, the response carries no payload. -/
theorem error_response_has_no_payload {Ctx J : Type}
    (parse : String → Except String J) (t : tablePluginImpl Ctx J) (ctx : Ctx)
    (request : ExtensionPluginRequest)
    (h : (t.Call parse ctx request).Status.Code ≠ 0) :
    (t.Call parse ctx request).Response = none := by
  have key : (t.Call parse ctx request).Status.Code = 0 ∨
      (t.Call parse ctx request).Response = none := by
    unfold tablePluginImpl.Call
    split
    · split
      · right; rfl
      · split
        · right; rfl
        · left; rfl
    · split
      · left; rfl
      · right; rfl
  exact key.resolve_left h

/-- Witness for C10: an unknown-action request produces a non-zero status
code and indeed no payload. -/
theorem error_response_has_no_payload_witness :
    ((NewTablePlugin examplePlugin).Call exampleParse ()
        [("action", "frobnicate")]).Status.Code ≠ 0 ∧
    ((NewTablePlugin examplePlugin).Call exampleParse ()
        [("action", "frobnicate")]).Response = none :=
  ⟨by decide,
   error_response_has_no_payload exampleParse (NewTablePlugin examplePlugin) ()
     [("action", "frobnicate")] (by decide)⟩

end OsqueryGo
